import Mathlib

/-!
Shallow embedding of the apify-supabase-ai application core:
the OpenAI analysis client (`src/lib/openai.ts`), the Supabase storage layer
(`src/lib/supabase-storage.ts`, shipped in `src/lib/apify.ts` part 2), and the
route handlers `POST /api/analyze` (`src/app/api/analyze/route.ts`) and
`POST /api/records/[id]` (`src/app/api/records/[id]/route.ts`).

Network calls are modelled by explicit response oracles, the records table by a
Lean list, and JavaScript string semantics (falsiness, `parseInt`,
`String.prototype.includes`) by executable Lean functions.
-/

namespace App

/-! ### JavaScript string helpers -/

/-- JS `a || b` on strings: the empty string is falsy. -/
def jsOr (a b : String) : String := if a = "" then b else a

/-- Character-list version of `startsWith`. -/
def charsStart : List Char → List Char → Bool
  | [], _ => true
  | _ :: _, [] => false
  | a :: as, b :: bs => a = b && charsStart as bs

/-- Character-list substring search. -/
def charsSub (n : List Char) : List Char → Bool
  | [] => charsStart n []
  | b :: bs => charsStart n (b :: bs) || charsSub n bs

/-- JS `hay.includes(needle)`. -/
def strIncludes (hay needle : String) : Bool := charsSub needle.toList hay.toList

/-- JS `parseInt(s, 10)`: skip leading whitespace, optional sign, longest digit
run; `none` models `NaN` (no digits at all). -/
def jsParseInt (s : String) : Option Int :=
  let cs := s.toList.dropWhile Char.isWhitespace
  let signAndRest : Int × List Char :=
    match cs with
    | '-' :: r => (-1, r)
    | '+' :: r => (1, r)
    | r => (1, r)
  let ds := signAndRest.2.takeWhile Char.isDigit
  if ds.isEmpty then none
  else some (signAndRest.1 * (ds.foldl (fun acc c => acc * 10 + (c.toNat - 48)) 0 : Nat))

/-- JS `!content || content.trim().length === 0`. -/
def isBlank (s : String) : Bool := s.toList.all Char.isWhitespace

/-! ### OpenAI client model (`src/lib/openai.ts`, `analyzeContent`)

One completion-API attempt is one `Resp`; the function consumes the oracle
`resp : Nat → Resp` indexed by attempt number. -/

/-- The analysis result record returned by `analyzeContent`. -/
structure AnalysisResult where
  summary : String
  sentiment : String
  keywords : List String
deriving DecidableEq, Repr

/-- Body of a 2xx completion response, after extraction of
`data.choices?.[0]?.message?.content` and `JSON.parse`.
`noContent` models a missing content field; `parseError m` models `JSON.parse`
throwing with message `m`; `parsed` carries the three fields the code
validates, with `""` standing for a falsy/absent `summary` or `sentiment` and
`none` for a `keywords` that is not an array. -/
inductive RespBody where
  | noContent
  | parseError (msg : String)
  | parsed (summary sentiment : String) (keywords : Option (List String))
deriving DecidableEq, Repr

/-- One HTTP response of the completion API. `httpError` is a non-2xx response
(`response.ok` false) with its status, status text, optional `retry-after`
header and error body text; `ok` is a 2xx response. -/
inductive Resp where
  | httpError (status : Nat) (statusText : String) (retryAfter : Option String)
      (errorText : String)
  | ok (body : RespBody)
deriving DecidableEq, Repr

/-- Result of `analyzeContent`: the returned analysis, or the thrown error's
message. -/
inductive Outcome where
  | success (a : AnalysisResult)
  | failure (msg : String)
deriving DecidableEq, Repr

/-- The message of the error thrown on a non-ok response:
``OpenAI API error: ${response.status} ${response.statusText}. ${errorText}``. -/
def apiErrorMsg (status : Nat) (statusText errorText : String) : String :=
  "OpenAI API error: " ++ toString status ++ " " ++ statusText ++ ". " ++ errorText

/-- The catch block's rewrapping of a thrown message. -/
def wrapCaught (msg : String) : String :=
  if strIncludes msg "JSON" then "Failed to parse OpenAI response: " ++ msg
  else "OpenAI analysis failed: " ++ msg

/-- Wait before a 429 retry, in milliseconds:
`retryAfter ? parseInt(retryAfter, 10) * 1000 : Math.pow(2, attempt) * 1000`.
`none` models `NaN` (a `retry-after` header with no digits). -/
def waitTime429 (retryAfter : Option String) (attempt : Nat) : Option Int :=
  match retryAfter with
  | some ra =>
      if ra = "" then some ((2 : Int) ^ attempt * 1000)
      else (jsParseInt ra).map (fun n => n * 1000)
  | none => some ((2 : Int) ^ attempt * 1000)

/-- Result of one iteration's `try` body: wait-then-retry (a 429 with retries
left), an error thrown to the `catch` block, or a returned analysis. -/
inductive StepRes where
  | retryWait (w : Option Int)
  | thrown (msg : String)
  | done (a : AnalysisResult)
deriving DecidableEq, Repr

/-- The `try` body of one loop iteration of `analyzeContent`, for response
`r` at attempt number `attempt`. -/
def tryBody (r : Resp) (retries attempt : Nat) : StepRes :=
  match r with
  | Resp.httpError status statusText retryAfter errorText =>
    if status = 429 ∧ attempt < retries then
      StepRes.retryWait (waitTime429 retryAfter attempt)
    else StepRes.thrown (apiErrorMsg status statusText errorText)
  | Resp.ok RespBody.noContent => StepRes.thrown "No analysis content in OpenAI response"
  | Resp.ok (RespBody.parseError m) => StepRes.thrown m
  | Resp.ok (RespBody.parsed summary sentiment keywords) =>
    if summary = "" ∨ sentiment = "" ∨ keywords = none then
      StepRes.thrown "Invalid analysis structure from OpenAI"
    else
      StepRes.done ⟨summary,
        (if sentiment = "positive" ∨ sentiment = "neutral" ∨ sentiment = "negative"
         then sentiment else "neutral"),
        keywords.getD []⟩

/-- The retry loop of `analyzeContent`, from attempt `attempt` with
`fuel` loop iterations left (`fuel = retries + 1 - attempt` at entry, matching
`for (let attempt = 0; attempt <= retries; attempt++)`).  Returns the list of
timed waits — `(attempt, waitMs)` pairs, `waitMs = none` for `NaN` — together
with the outcome.  A thrown message goes through the `catch` block: rethrow
(wrapped) on the last attempt or when the message does not mention `429`,
retry otherwise. -/
def analyzeGo (resp : Nat → Resp) (retries : Nat) :
    Nat → Nat → List (Nat × Option Int) × Outcome
  | 0, _ => ([], Outcome.failure "OpenAI analysis failed after all retries")
  | fuel + 1, attempt =>
    match tryBody (resp attempt) retries attempt with
    | StepRes.retryWait w =>
      let rest := analyzeGo resp retries fuel (attempt + 1)
      ((attempt, w) :: rest.1, rest.2)
    | StepRes.thrown msg =>
      if attempt = retries || !(strIncludes msg "429") then
        ([], Outcome.failure (wrapCaught msg))
      else analyzeGo resp retries fuel (attempt + 1)
    | StepRes.done a => ([], Outcome.success a)

/-- `analyzeContent(content, retries)` with response oracle `resp`. The
environment-variable check is outside the model; the empty-content guard is
kept. -/
def analyzeContent (content : String) (resp : Nat → Resp) (retries : Nat := 3) :
    List (Nat × Option Int) × Outcome :=
  if isBlank content then ([], Outcome.failure "Content cannot be empty")
  else analyzeGo resp retries (retries + 1) 0

/-! ### Ingestion model (`src/lib/apify.ts` part 2: `supabase-storage`)

An Apify dataset item, restricted to the fields the mapper reads; `""` models
an absent/falsy field. -/

structure ApifyItem where
  id : String := ""
  url : String := ""
  uniqueId : String := ""
  source : String := ""
  link : String := ""
  text : String := ""
  content : String := ""
  title : String := ""
  body : String := ""
  createdAt : String := ""
  publishedAt : String := ""
  date : String := ""
deriving DecidableEq, Repr

/-- A row of the `records` table as written by ingestion. -/
structure RecordRow where
  external_id : String
  source : String
  content : String
  source_created_at : Option String
deriving DecidableEq, Repr

/-- Mapping of one item, with `fresh` the value of
`String(Date.now() + Math.random())` drawn for this item. -/
def mapItem (fresh : String) (item : ApifyItem) : RecordRow :=
  { external_id := jsOr item.id (jsOr item.url (jsOr item.uniqueId fresh))
    source := jsOr item.url (jsOr item.source (jsOr item.link "unknown"))
    content := jsOr item.text (jsOr item.content (jsOr item.title (jsOr item.body "")))
    source_created_at :=
      let s := jsOr item.createdAt (jsOr item.publishedAt item.date)
      if s = "" then none else some s }

/-- Mapping of a list of items starting at index `k`; `fresh` indexes the
timestamp-random stamps by item position. -/
def mapItemsGo (fresh : Nat → String) : Nat → List ApifyItem → List RecordRow
  | _, [] => []
  | k, item :: rest => mapItem (fresh k) item :: mapItemsGo fresh (k + 1) rest

/-- `mapApifyItemsToRecords`: map every item, then keep only rows with
non-empty content. -/
def mapApifyItemsToRecords (fresh : Nat → String) (items : List ApifyItem) :
    List RecordRow :=
  (mapItemsGo fresh 0 items).filter (fun r => r.content != "")

/-- The `external_id`s of the batch that already exist in the table: the
result of `.select('external_id').in('external_id', externalIds)`. -/
def existingIdsOf (db rows : List RecordRow) : List String :=
  (db.map (fun r => r.external_id)).filter
    (fun e => decide (e ∈ rows.map (fun r => r.external_id)))

/-- The rows of the batch whose `external_id` is not yet in the table. -/
def newRowsOf (db rows : List RecordRow) : List RecordRow :=
  rows.filter (fun r => decide (r.external_id ∉ existingIdsOf db rows))

/-- `storeInSupabase`: look up which of the batch's `external_id`s already
exist, insert only the rows whose `external_id` is not present, and return
`(inserted, insertedRows, newTable)`.  The table is the list `db`; the
`.in('external_id', externalIds)` existence query and the insert's success
path are modelled; connection testing and error wrapping are I/O only. -/
def storeInSupabase (fresh : Nat → String) (db : List RecordRow)
    (items : List ApifyItem) : Nat × List RecordRow × List RecordRow :=
  if items.isEmpty then (0, [], db)
  else if (mapApifyItemsToRecords fresh items).isEmpty then (0, [], db)
  else if (newRowsOf db (mapApifyItemsToRecords fresh items)).isEmpty then (0, [], db)
  else ((newRowsOf db (mapApifyItemsToRecords fresh items)).length,
        newRowsOf db (mapApifyItemsToRecords fresh items),
        db ++ newRowsOf db (mapApifyItemsToRecords fresh items))

/-! ### Analysis-side storage and route models -/

/-- A stored record as seen by the analysis paths. `created_at` and
`analyzed_at` are abstract instants (`Nat`). -/
structure DbRecord where
  id : String
  external_id : String
  content : String
  created_at : Nat
  analysis : Option AnalysisResult
  analyzed_at : Option Nat
deriving DecidableEq, Repr

/-- Ordering by `created_at`, as in `.order('created_at', { ascending: true })`. -/
def createdLE (a b : DbRecord) : Prop := a.created_at ≤ b.created_at

instance : DecidableRel createdLE := fun a b => Nat.decLe a.created_at b.created_at

instance : IsTotal DbRecord createdLE := ⟨fun a b => Nat.le_total a.created_at b.created_at⟩

instance : IsTrans DbRecord createdLE := ⟨fun _ _ _ => Nat.le_trans⟩

/-- `getUnanalyzedRecords(limit)`: rows with `analyzed_at IS NULL`, ordered by
`created_at` ascending, at most `limit` of them. -/
def getUnanalyzedRecords (db : List DbRecord) (limit : Nat) : List DbRecord :=
  (((db.filter (fun r => r.analyzed_at.isNone)).insertionSort createdLE).take limit)

/-- `updateRecordAnalysis(recordId, analysis)`: set `analysis` and
`analyzed_at` on the row with this `id` ('now' is the value of
`new Date().toISOString()`). -/
def updateRecordAnalysis (db : List DbRecord) (recordId : String)
    (a : AnalysisResult) (now : Nat) : List DbRecord :=
  db.map (fun r =>
    if r.id = recordId then { r with analysis := some a, analyzed_at := some now }
    else r)

/-- The `for` loop of `POST /api/analyze`: for the `i`-th record the oracle
gives the combined outcome of `analyzeContent` + `updateRecordAnalysis`
(`Except.error` when either throws).  Returns the `results` ids, the `errors`
ids, and the table after all updates. -/
def batchLoop (oracle : Nat → Except String AnalysisResult) (now : Nat) :
    List DbRecord → List DbRecord → Nat → List String × List String × List DbRecord
  | [], db, _ => ([], [], db)
  | r :: rest, db, i =>
    match oracle i with
    | Except.ok a =>
      let step := batchLoop oracle now rest (updateRecordAnalysis db r.id a now) (i + 1)
      (r.id :: step.1, step.2.1, step.2.2)
    | Except.error _ =>
      let step := batchLoop oracle now rest db (i + 1)
      (step.1, r.id :: step.2.1, step.2.2)

/-- The JSON body of `POST /api/analyze`'s response, restricted to the fields
the route sets. -/
structure AnalyzeResponse where
  status : Nat
  ok : Bool
  analyzed : Nat
  failed : Nat
  resultIds : List String
  errorIds : List String
deriving DecidableEq, Repr

/-- `const limit = limitParam ? parseInt(limitParam, 10) : 10;` — the empty
string is falsy, so both an absent and an empty parameter give 10; `none`
models `NaN`. -/
def jsLimit (limitParam : Option String) : Option Int :=
  match limitParam with
  | none => some 10
  | some s => if s = "" then some 10 else jsParseInt s

/-- `POST /api/analyze`: validate `limit`, select unanalyzed records, run the
batch loop.  Returns the response and the table afterwards. -/
def analyzePOST (limitParam : Option String) (db : List DbRecord)
    (oracle : Nat → Except String AnalysisResult) (now : Nat) :
    AnalyzeResponse × List DbRecord :=
  match jsLimit limitParam with
  | none =>
    ({ status := 400, ok := false, analyzed := 0, failed := 0,
       resultIds := [], errorIds := [] }, db)
  | some limit =>
    if limit < 1 ∨ limit > 50 then
      ({ status := 400, ok := false, analyzed := 0, failed := 0,
         resultIds := [], errorIds := [] }, db)
    else
      let records := getUnanalyzedRecords db limit.toNat
      if records.isEmpty then
        ({ status := 200, ok := true, analyzed := 0, failed := 0,
           resultIds := [], errorIds := [] }, db)
      else
        let run := batchLoop oracle now records db 0
        ({ status := 200, ok := true, analyzed := run.1.length,
           failed := run.2.1.length, resultIds := run.1,
           errorIds := run.2.1 }, run.2.2)

/-- `POST /api/records/[id]`: for `?action=analyze`, fetch the row by `id`,
analyze its content (outcome given by `outcome`), and update it
unconditionally; other actions give 400, a missing row 404, a thrown analysis
or update error 500.  Returns the HTTP status and the table afterwards. -/
def recordAnalyzePOST (db : List DbRecord) (recordId : String)
    (action : Option String) (outcome : Except String AnalysisResult)
    (now : Nat) : Nat × List DbRecord :=
  if recordId = "" then (400, db)
  else
    match action with
    | some "analyze" =>
      match db.find? (fun r => r.id == recordId) with
      | none => (404, db)
      | some _ =>
        match outcome with
        | Except.ok a => (200, updateRecordAnalysis db recordId a now)
        | Except.error _ => (500, db)
    | _ => (400, db)

/-! ### Helper lemmas about the OpenAI client model -/

theorem tryBody_retryWait_inv (r : Resp) (retries attempt : Nat) (w : Option Int)
    (h : tryBody r retries attempt = StepRes.retryWait w) :
    attempt < retries ∧
      ∃ stx ra et, r = Resp.httpError 429 stx ra et ∧ w = waitTime429 ra attempt := by
  cases r with
  | httpError status statusText retryAfter errorText =>
    simp only [tryBody] at h
    split at h
    · next hc =>
      injection h with h'
      exact ⟨hc.2, statusText, retryAfter, errorText, by rw [hc.1], h'.symm⟩
    · exact absurd h (by simp)
  | ok body =>
    cases body with
    | noContent => simp [tryBody] at h
    | parseError m => simp [tryBody] at h
    | parsed su se kw =>
      simp only [tryBody] at h
      split at h <;> simp at h

theorem tryBody_done_sentiment (r : Resp) (retries attempt : Nat) (a : AnalysisResult)
    (h : tryBody r retries attempt = StepRes.done a) :
    a.sentiment = "positive" ∨ a.sentiment = "neutral" ∨ a.sentiment = "negative" := by
  cases r with
  | httpError status statusText retryAfter errorText =>
    simp only [tryBody] at h
    split at h <;> simp at h
  | ok body =>
    cases body with
    | noContent => simp [tryBody] at h
    | parseError m => simp [tryBody] at h
    | parsed su se kw =>
      simp only [tryBody] at h
      split at h
      · simp at h
      · injection h with h'
        subst h'
        simp only
        split
        · next hc => exact hc
        · exact Or.inr (Or.inl rfl)

theorem analyzeGo_success_sentiment (resp : Nat → Resp) (retries : Nat) :
    ∀ (fuel attempt : Nat) (a : AnalysisResult),
      (analyzeGo resp retries fuel attempt).2 = Outcome.success a →
      a.sentiment = "positive" ∨ a.sentiment = "neutral" ∨ a.sentiment = "negative" := by
  intro fuel
  induction fuel with
  | zero => intro attempt a h; simp [analyzeGo] at h
  | succ n ih =>
    intro attempt a h
    rw [analyzeGo] at h
    cases htb : tryBody (resp attempt) retries attempt with
    | retryWait w =>
      simp only [htb] at h
      exact ih (attempt + 1) a h
    | thrown msg =>
      simp only [htb] at h
      split at h
      · simp at h
      · exact ih (attempt + 1) a h
    | done b =>
      simp only [htb] at h
      have h2 : Outcome.success b = Outcome.success a := h
      injection h2 with hba
      exact hba ▸ tryBody_done_sentiment _ _ _ _ htb

theorem analyzeGo_waits (resp : Nat → Resp) (retries : Nat) :
    ∀ (fuel attempt : Nat),
      (analyzeGo resp retries fuel attempt).1.length ≤ retries - attempt ∧
      ∀ p ∈ (analyzeGo resp retries fuel attempt).1,
        p.1 < retries ∧ ∃ stx ra et, resp p.1 = Resp.httpError 429 stx ra et ∧
          p.2 = waitTime429 ra p.1 := by
  intro fuel
  induction fuel with
  | zero => intro attempt; simp [analyzeGo]
  | succ n ih =>
    intro attempt
    cases htb : tryBody (resp attempt) retries attempt with
    | retryWait w =>
      obtain ⟨hlt, stx, ra, et, hre, hw⟩ := tryBody_retryWait_inv _ _ _ _ htb
      simp only [analyzeGo, htb]
      constructor
      · have := (ih (attempt + 1)).1
        simp only [List.length_cons]
        omega
      · intro p hp
        rcases List.mem_cons.mp hp with hp | hp
        · subst hp
          exact ⟨hlt, stx, ra, et, hre, hw⟩
        · exact (ih (attempt + 1)).2 p hp
    | thrown msg =>
      simp only [analyzeGo, htb]
      split
      · simp
      · refine ⟨le_trans (ih (attempt + 1)).1 (by omega), (ih (attempt + 1)).2⟩
    | done a => simp [analyzeGo, htb]

/-! ### Claim C1 -/

/-- Oracle for C1: two 429 responses with `retry-after: 1`, then a success. -/
def c1resp : Nat → Resp
  | 0 => Resp.httpError 429 "Too Many Requests" (some "1") ""
  | 1 => Resp.httpError 429 "Too Many Requests" (some "1") ""
  | _ => Resp.ok (RespBody.parsed "A summary." "positive" (some ["k"]))

/-- C1 counterexample: with `retry-after: 1` at attempt 1, the code waits
1000 ms (`parseInt(retryAfter) * 1000`), while the claimed
`max(retry-after, 2^attempt)` seconds would be 2000 ms. -/
theorem C1_counterexample :
    (analyzeContent "hello" c1resp 3).1 = [(0, some 1000), (1, some 1000)] ∧
    max ((1 : Int) * 1000) (2 ^ 1 * 1000) = 2000 ∧
    (some (1000 : Int)) ≠ (some (2000 : Int)) :=
  ⟨rfl, rfl, by decide⟩

/-- C1 (amended): with retries = 3, a 429 response triggers at most 3
retries, and the wait before the retry of attempt `a` is
`parseInt(retry-after) * 1000` ms when the header is present and non-empty,
and `2^a * 1000` ms otherwise — not the max of the two. -/
theorem C1_waitTimes (content : String) (resp : Nat → Resp)
    (p : Nat × Option Int) (hp : p ∈ (analyzeContent content resp 3).1) :
    (analyzeContent content resp 3).1.length ≤ 3 ∧ p.1 < 3 ∧
    ∃ stx ra et, resp p.1 = Resp.httpError 429 stx ra et ∧
      p.2 = waitTime429 ra p.1 := by
  unfold analyzeContent at hp ⊢
  split at hp
  · simp at hp
  · next h =>
    rw [if_neg h]
    exact ⟨(analyzeGo_waits resp 3 4 0).1, (analyzeGo_waits resp 3 4 0).2 p hp⟩

/-- C1 witness: the recorded wait of attempt 1 under `c1resp`. -/
theorem C1_waitTimes_witness :
    (analyzeContent "hello" c1resp 3).1.length ≤ 3 ∧ (1, some (1000 : Int)).1 < 3 ∧
    ∃ stx ra et, c1resp (1, some (1000 : Int)).1 = Resp.httpError 429 stx ra et ∧
      (1, some (1000 : Int)).2 = waitTime429 ra (1, some (1000 : Int)).1 :=
  C1_waitTimes "hello" c1resp (1, some 1000) (by decide)

/-! ### Claim C7 -/

/-- Oracle for the C7 counterexample: a 500 whose error body mentions "429",
then a success. -/
def c7resp : Nat → Resp
  | 0 => Resp.httpError 500 "Internal Server Error" none "rate limit 429 exceeded"
  | _ => Resp.ok (RespBody.parsed "S." "positive" (some ["k"]))

/-- C7 counterexample: the first response fails with HTTP 500 — not 429 —
yet `analyzeContent` retries (because the thrown message contains the
substring "429") and returns the second attempt's success instead of
surfacing the 500 immediately. -/
theorem C7_counterexample :
    c7resp 0 = Resp.httpError 500 "Internal Server Error" none "rate limit 429 exceeded" ∧
    (analyzeContent "hello" c7resp 3).2 =
      Outcome.success ⟨"S.", "positive", ["k"]⟩ :=
  ⟨rfl, rfl⟩

/-- C7 (amended): a failure whose HTTP status is not 429 is surfaced
immediately without retry, provided its error message
(`OpenAI API error: status statusText. body`) does not contain the substring
"429"; when the message does contain "429" (e.g. in the response body), the
catch block retries it like a rate-limit error. -/
theorem C7_non429_immediate (content : String) (resp : Nat → Resp)
    (retries status : Nat) (statusText errorText : String) (ra : Option String)
    (h0 : resp 0 = Resp.httpError status statusText ra errorText)
    (hs : status ≠ 429)
    (hm : strIncludes (apiErrorMsg status statusText errorText) "429" = false)
    (hc : isBlank content = false) :
    analyzeContent content resp retries =
      ([], Outcome.failure (wrapCaught (apiErrorMsg status statusText errorText))) := by
  unfold analyzeContent
  rw [hc]
  rw [analyzeGo, h0]
  simp [tryBody, hs, hm]

/-- Oracle for the C7 witness: every response is a plain 500. -/
def c7plain : Nat → Resp := fun _ => Resp.httpError 500 "ISE" none "boom"

/-- C7 witness: a plain 500 is surfaced immediately. -/
theorem C7_non429_immediate_witness :
    analyzeContent "hi" c7plain 3 =
      ([], Outcome.failure (wrapCaught (apiErrorMsg 500 "ISE" "boom"))) :=
  C7_non429_immediate "hi" c7plain 3 500 "ISE" "boom" none rfl (by decide)
    (by decide) (by decide)

/-! ### Claim C5 -/

/-- Oracle for the C5 witness: an accepted body whose sentiment "bogus" is
outside the allowed set. -/
def c5resp : Nat → Resp := fun _ => Resp.ok (RespBody.parsed "S." "bogus" (some []))

/-- C5: every analysis returned by `analyzeContent` carries a sentiment in
{positive, neutral, negative}, and an accepted body whose sentiment lies
outside that set is returned with sentiment "neutral". -/
theorem C5_sentiment_constrained (content : String) (resp : Nat → Resp)
    (retries : Nat) (a : AnalysisResult) (su se : String) (kw : List String)
    (rt att : Nat) (b : AnalysisResult)
    (h : (analyzeContent content resp retries).2 = Outcome.success a)
    (hb : tryBody (Resp.ok (RespBody.parsed su se (some kw))) rt att = StepRes.done b)
    (hse : se ≠ "positive" ∧ se ≠ "neutral" ∧ se ≠ "negative") :
    (a.sentiment = "positive" ∨ a.sentiment = "neutral" ∨ a.sentiment = "negative") ∧
    b.sentiment = "neutral" := by
  constructor
  · unfold analyzeContent at h
    split at h
    · simp at h
    · exact analyzeGo_success_sentiment resp retries (retries + 1) 0 a h
  · simp only [tryBody] at hb
    split at hb
    · simp at hb
    · injection hb with hb'
      subst hb'
      simp [hse.1, hse.2.1, hse.2.2]

/-- C5 witness: the run under `c5resp` succeeds with the coerced sentiment
"neutral". -/
theorem C5_sentiment_constrained_witness :
    ((AnalysisResult.mk "S." "neutral" []).sentiment = "positive" ∨
     (AnalysisResult.mk "S." "neutral" []).sentiment = "neutral" ∨
     (AnalysisResult.mk "S." "neutral" []).sentiment = "negative") ∧
    (AnalysisResult.mk "S." "neutral" []).sentiment = "neutral" :=
  C5_sentiment_constrained "hi" c5resp 3 ⟨"S.", "neutral", []⟩ "S." "bogus" [] 3 0
    ⟨"S.", "neutral", []⟩ rfl rfl (by decide)

/-! ### Helper lemmas about the storage models -/

theorem mem_getUnanalyzed {db : List DbRecord} {limit : Nat} {r : DbRecord}
    (h : r ∈ getUnanalyzedRecords db limit) : r ∈ db ∧ r.analyzed_at = none := by
  unfold getUnanalyzedRecords at h
  have h1 := List.take_subset _ _ h
  have h2 := (List.mem_insertionSort createdLE).mp h1
  have h3 := List.mem_filter.mp h2
  exact ⟨h3.1, Option.isNone_iff_eq_none.mp h3.2⟩

theorem mem_mapApify_content {fresh : Nat → String} {items : List ApifyItem}
    {r : RecordRow} (h : r ∈ mapApifyItemsToRecords fresh items) :
    r.content ≠ "" := by
  unfold mapApifyItemsToRecords at h
  have h2 := (List.mem_filter.mp h).2
  simpa using h2

theorem mem_newRowsOf {db rows : List RecordRow} {r : RecordRow}
    (h : r ∈ newRowsOf db rows) :
    r ∈ rows ∧ r.external_id ∉ db.map (fun x => x.external_id) := by
  unfold newRowsOf at h
  have h1 := List.mem_filter.mp h
  refine ⟨h1.1, fun hmem => ?_⟩
  have hnot : r.external_id ∉ existingIdsOf db rows := by simpa using h1.2
  apply hnot
  unfold existingIdsOf
  refine List.mem_filter.mpr ⟨hmem, ?_⟩
  simp only [decide_eq_true_eq]
  exact List.mem_map_of_mem _ h1.1

/-! ### Claim C6 -/

/-- C6: `getUnanalyzedRecords` returns only records with `analyzed_at` null,
sorted by `created_at` ascending, at most `limit` of them; a record whose
`analyzed_at` is set is never selected. -/
theorem C6_selector_filters (db : List DbRecord) (limit : Nat) (r s : DbRecord)
    (hr : r ∈ getUnanalyzedRecords db limit)
    (_hs : s ∈ db) (hsa : s.analyzed_at ≠ none) :
    r.analyzed_at = none ∧
    (getUnanalyzedRecords db limit).length ≤ limit ∧
    List.Sorted createdLE (getUnanalyzedRecords db limit) ∧
    s ∉ getUnanalyzedRecords db limit := by
  refine ⟨(mem_getUnanalyzed hr).2, ?_, ?_, ?_⟩
  · unfold getUnanalyzedRecords
    rw [List.length_take]
    exact min_le_left _ _
  · unfold getUnanalyzedRecords
    exact List.Pairwise.sublist (List.take_sublist _ _)
      (List.sorted_insertionSort createdLE _)
  · intro hcon
    exact hsa (mem_getUnanalyzed hcon).2

/-- A record already analyzed. -/
def recAn : DbRecord :=
  ⟨"r1", "e1", "c", 1, some ⟨"old", "positive", ["x"]⟩, some 5⟩

/-- A record not yet analyzed. -/
def recUn : DbRecord := ⟨"r2", "e2", "c2", 2, none, none⟩

/-- C6 witness: with one analyzed and one unanalyzed record, the selector
returns exactly the unanalyzed one. -/
theorem C6_selector_filters_witness :
    recUn.analyzed_at = none ∧
    (getUnanalyzedRecords [recAn, recUn] 10).length ≤ 10 ∧
    List.Sorted createdLE (getUnanalyzedRecords [recAn, recUn] 10) ∧
    recAn ∉ getUnanalyzedRecords [recAn, recUn] 10 :=
  C6_selector_filters [recAn, recUn] 10 recUn recAn (by decide) (by decide) (by decide)

/-! ### Claim C9 -/

/-- C9: every row inserted by `storeInSupabase` has non-empty content. -/
theorem C9_nonempty_content (fresh : Nat → String) (db : List RecordRow)
    (items : List ApifyItem) (r : RecordRow)
    (hr : r ∈ (storeInSupabase fresh db items).2.1) : r.content ≠ "" := by
  unfold storeInSupabase at hr
  split at hr
  · simp at hr
  · split at hr
    · simp at hr
    · split at hr
      · simp at hr
      · exact mem_mapApify_content (mem_newRowsOf hr).1

/-- Stamp generator for witnesses: the stamp is the item index rendered in
decimal. -/
def freshIdx : Nat → String := fun k => toString k

/-- An item with a stable id and content. -/
def itemStable : ApifyItem := { id := "a1", text := "hello" }

/-- C9 witness: the single inserted row of a one-item ingestion has
non-empty content. -/
theorem C9_nonempty_content_witness :
    (RecordRow.mk "a1" "unknown" "hello" none).content ≠ "" :=
  C9_nonempty_content freshIdx [] [itemStable]
    (RecordRow.mk "a1" "unknown" "hello" none) (by decide)

/-! ### Claim C4 -/

/-- C4: ingestion never touches existing rows — the stored table extends the
old one, which survives unchanged as its prefix — and every row beyond that
prefix has an `external_id` that was not present before. -/
theorem C4_skip_on_conflict (fresh : Nat → String) (db : List RecordRow)
    (items : List ApifyItem) :
    ((storeInSupabase fresh db items).2.2).take db.length = db ∧
    ∀ r ∈ ((storeInSupabase fresh db items).2.2).drop db.length,
      r.external_id ∉ db.map (fun x => x.external_id) := by
  unfold storeInSupabase
  split
  · simp
  · split
    · simp
    · split
      · simp
      · refine ⟨List.take_left _ _, ?_⟩
        intro r hr
        rw [List.drop_left] at hr
        exact (mem_newRowsOf hr).2

/-- An already-stored row. -/
def rowE1 : RecordRow := ⟨"e1", "s", "old content", none⟩

/-- An item mapping to the already-present `external_id` "e1". -/
def itemE1 : ApifyItem := { id := "e1", text := "fresh text" }

/-- An item mapping to the new `external_id` "e2". -/
def itemE2 : ApifyItem := { id := "e2", text := "other text" }

/-- C4 witness: ingesting a batch overlapping the table leaves the stored
row untouched and inserts only the new `external_id`. -/
theorem C4_skip_on_conflict_witness :
    ((storeInSupabase freshIdx [rowE1] [itemE1, itemE2]).2.2).take 1 = [rowE1] ∧
    (RecordRow.mk "e2" "unknown" "other text" none).external_id ∉
      [rowE1].map (fun x => x.external_id) :=
  ⟨(C4_skip_on_conflict freshIdx [rowE1] [itemE1, itemE2]).1,
   (C4_skip_on_conflict freshIdx [rowE1] [itemE1, itemE2]).2
     (RecordRow.mk "e2" "unknown" "other text" none) (by decide)⟩

/-! ### Claim C10 -/

theorem batchLoop_total (oracle : Nat → Except String AnalysisResult) (now : Nat) :
    ∀ (records db : List DbRecord) (i : Nat),
      (batchLoop oracle now records db i).1.length +
        (batchLoop oracle now records db i).2.1.length = records.length ∧
      ∀ r ∈ records, r.id ∈ (batchLoop oracle now records db i).1 ∨
        r.id ∈ (batchLoop oracle now records db i).2.1 := by
  intro records
  induction records with
  | nil => intro db i; simp [batchLoop]
  | cons r rest ih =>
    intro db i
    cases ho : oracle i with
    | ok a =>
      simp only [batchLoop, ho]
      have h := ih (updateRecordAnalysis db r.id a now) (i + 1)
      constructor
      · simp only [List.length_cons]
        omega
      · intro s hsm
        rcases List.mem_cons.mp hsm with hsm | hsm
        · exact Or.inl (by simp [hsm])
        · rcases h.2 s hsm with hc | hc
          · exact Or.inl (List.mem_cons_of_mem _ hc)
          · exact Or.inr hc
    | error e =>
      simp only [batchLoop, ho]
      have h := ih db (i + 1)
      constructor
      · simp only [List.length_cons]
        omega
      · intro s hsm
        rcases List.mem_cons.mp hsm with hsm | hsm
        · exact Or.inr (by simp [hsm])
        · rcases h.2 s hsm with hc | hc
          · exact Or.inl hc
          · exact Or.inr (List.mem_cons_of_mem _ hc)

/-- C10: when the limit validates, the analyze route records every selected
record exactly once — the returned `analyzed` and `failed` counts sum to the
number of selected records, and each selected record's id lands in the
results or in the errors list. -/
theorem C10_batch_robust (limitParam : Option String) (db : List DbRecord)
    (oracle : Nat → Except String AnalysisResult) (now : Nat) (l : Int)
    (hl : jsLimit limitParam = some l) (hok : ¬(l < 1 ∨ l > 50)) :
    (analyzePOST limitParam db oracle now).1.analyzed +
      (analyzePOST limitParam db oracle now).1.failed =
      (getUnanalyzedRecords db l.toNat).length ∧
    ∀ r ∈ getUnanalyzedRecords db l.toNat,
      r.id ∈ (analyzePOST limitParam db oracle now).1.resultIds ∨
      r.id ∈ (analyzePOST limitParam db oracle now).1.errorIds := by
  unfold analyzePOST
  rw [hl]
  simp only [if_neg hok]
  split
  · next he =>
    rw [List.isEmpty_iff] at he
    simp [he]
  · exact ⟨(batchLoop_total oracle now _ db 0).1,
      (batchLoop_total oracle now _ db 0).2⟩

/-- Oracle for the C10 witness: the first record fails, later ones succeed. -/
def c10oracle : Nat → Except String AnalysisResult := fun i =>
  if i = 0 then Except.error "OpenAI analysis failed: boom"
  else Except.ok ⟨"s", "neutral", []⟩

/-- C10 witness: a failing first record is recorded as an error and the
counts still sum to the number of selected records. -/
theorem C10_batch_robust_witness :
    (analyzePOST none [recAn, recUn] c10oracle 9).1.analyzed +
      (analyzePOST none [recAn, recUn] c10oracle 9).1.failed =
      (getUnanalyzedRecords [recAn, recUn] (10 : Int).toNat).length ∧
    ∀ r ∈ getUnanalyzedRecords [recAn, recUn] (10 : Int).toNat,
      r.id ∈ (analyzePOST none [recAn, recUn] c10oracle 9).1.resultIds ∨
      r.id ∈ (analyzePOST none [recAn, recUn] c10oracle 9).1.errorIds :=
  C10_batch_robust none [recAn, recUn] c10oracle 9 10 rfl (by decide)

/-! ### Claim C3 -/

theorem mem_update_of_ne (db : List DbRecord) (tid : String) (a : AnalysisResult)
    (now : Nat) (r : DbRecord) (hr : r ∈ db) (hne : r.id ≠ tid) :
    r ∈ updateRecordAnalysis db tid a now := by
  unfold updateRecordAnalysis
  have h2 := List.mem_map_of_mem
    (fun x => if x.id = tid then { x with analysis := some a, analyzed_at := some now }
     else x) hr
  simpa [hne] using h2

theorem batchLoop_preserves (oracle : Nat → Except String AnalysisResult)
    (now : Nat) (r : DbRecord) :
    ∀ (records db : List DbRecord) (i : Nat), r ∈ db →
      (∀ s ∈ records, s.id ≠ r.id) →
      r ∈ (batchLoop oracle now records db i).2.2 := by
  intro records
  induction records with
  | nil => intro db i hdb _; simpa [batchLoop] using hdb
  | cons s rest ih =>
    intro db i hdb hids
    cases ho : oracle i with
    | ok a =>
      simp only [batchLoop, ho]
      refine ih _ (i + 1) ?_ (fun t ht => hids t (List.mem_cons_of_mem _ ht))
      exact mem_update_of_ne db s.id a now r hdb
        (fun h => hids s (List.mem_cons_self _ _) h.symm)
    | error e =>
      simp only [batchLoop, ho]
      exact ih db (i + 1) hdb (fun t ht => hids t (List.mem_cons_of_mem _ ht))

/-- C3 counterexample: `POST /api/records/[id]?action=analyze` on a record
whose analysis is already set replaces both `analysis` and `analyzed_at`
with new values — a second transition the claim rules out. -/
theorem C3_counterexample :
    recAn.analysis = some ⟨"old", "positive", ["x"]⟩ ∧
    recAn.analyzed_at = some 5 ∧
    (recordAnalyzePOST [recAn] "r1" (some "analyze")
        (Except.ok ⟨"new", "negative", ["y"]⟩) 9).2 =
      [⟨"r1", "e1", "c", 1, some ⟨"new", "negative", ["y"]⟩, some 9⟩] ∧
    (some (⟨"new", "negative", ["y"]⟩ : AnalysisResult) ≠
      some (⟨"old", "positive", ["x"]⟩ : AnalysisResult)) :=
  ⟨rfl, rfl, rfl, by decide⟩

/-- C3 (amended): ingestion and the batch analyze route never overwrite an
already-set `analysis`/`analyzed_at` — any record of the table with
`analyzed_at` set survives `POST /api/analyze` untouched (given the table's
`id`s are unique) — but the single-record endpoint
`POST /api/records/[id]?action=analyze` is a second mutation path that
overwrites them unconditionally. -/
theorem C3_batch_no_overwrite (limitParam : Option String) (db : List DbRecord)
    (oracle : Nat → Except String AnalysisResult) (now : Nat) (r : DbRecord)
    (hnd : (db.map (fun x => x.id)).Nodup) (hr : r ∈ db)
    (ha : r.analyzed_at ≠ none) :
    r ∈ (analyzePOST limitParam db oracle now).2 := by
  unfold analyzePOST
  cases hjl : jsLimit limitParam with
  | none => simpa using hr
  | some l =>
    simp only
    split
    · simpa using hr
    · split
      · simpa using hr
      · refine batchLoop_preserves oracle now r _ db 0 hr ?_
        intro s hsm hid
        have hsd := mem_getUnanalyzed hsm
        have : s = r := List.inj_on_of_nodup_map hnd hsd.1 hr hid
        rw [this] at hsd
        exact ha hsd.2

/-- C3 witness: the analyzed record `recAn` survives a batch run untouched. -/
theorem C3_batch_no_overwrite_witness :
    recAn ∈ (analyzePOST none [recAn, recUn] c10oracle 9).2 :=
  C3_batch_no_overwrite none [recAn, recUn] c10oracle 9 recAn (by decide)
    (by decide) (by decide)

/-! ### Claim C2 -/

/-- An item whose `external_id` does not depend on the timestamp-random
fallback: at least one of `id`, `url`, `uniqueId` is set. -/
def stableId (item : ApifyItem) : Prop :=
  ¬(item.id = "" ∧ item.url = "" ∧ item.uniqueId = "")

instance (item : ApifyItem) : Decidable (stableId item) := by
  unfold stableId; infer_instance

theorem mapItem_stable {item : ApifyItem} (h : stableId item) (f g : String) :
    mapItem f item = mapItem g item := by
  unfold stableId at h
  push_neg at h
  unfold mapItem jsOr
  by_cases h1 : item.id = ""
  · by_cases h2 : item.url = ""
    · have h3 : item.uniqueId ≠ "" := h h1 h2
      simp [h1, h2, h3]
    · simp [h1, h2]
  · simp [h1]

theorem mapItemsGo_stable (f g : Nat → String) :
    ∀ (items : List ApifyItem), (∀ item ∈ items, stableId item) →
      ∀ k, mapItemsGo f k items = mapItemsGo g k items := by
  intro items
  induction items with
  | nil => intro _ k; rfl
  | cons it rest ih =>
    intro h k
    unfold mapItemsGo
    rw [mapItem_stable (h it (List.mem_cons_self _ _)) (f k) (g k),
        ih (fun x hx => h x (List.mem_cons_of_mem _ hx)) (k + 1)]

theorem mapApify_stable (f g : Nat → String) (items : List ApifyItem)
    (h : ∀ item ∈ items, stableId item) :
    mapApifyItemsToRecords f items = mapApifyItemsToRecords g items := by
  unfold mapApifyItemsToRecords
  rw [mapItemsGo_stable f g items h 0]

theorem store_ids_present (fresh : Nat → String) (db : List RecordRow)
    (items : List ApifyItem) (r : RecordRow)
    (hr : r ∈ mapApifyItemsToRecords fresh items) :
    r.external_id ∈
      ((storeInSupabase fresh db items).2.2).map (fun x => x.external_id) := by
  unfold storeInSupabase
  split
  · next he =>
    rw [List.isEmpty_iff] at he
    rw [he] at hr
    simp [mapApifyItemsToRecords, mapItemsGo] at hr
  · split
    · next he =>
      rw [List.isEmpty_iff] at he
      exact absurd (he ▸ hr) (List.not_mem_nil r)
    · split
      · next hne =>
        rw [List.isEmpty_iff] at hne
        unfold newRowsOf at hne
        rw [List.filter_eq_nil_iff] at hne
        have h1 := hne r hr
        simp only [decide_eq_true_eq, not_not] at h1
        exact List.mem_filter.mp h1 |>.1
      · by_cases hmem : r.external_id ∈ existingIdsOf db (mapApifyItemsToRecords fresh items)
        · have h1 : r.external_id ∈ db.map (fun x => x.external_id) :=
            (List.mem_filter.mp hmem).1
          simp only [List.map_append, List.mem_append]
          exact Or.inl h1
        · have h2 : r ∈ newRowsOf db (mapApifyItemsToRecords fresh items) := by
            unfold newRowsOf
            exact List.mem_filter.mpr ⟨hr, by simpa using hmem⟩
          simp only [List.map_append, List.mem_append]
          exact Or.inr (List.mem_map_of_mem _ h2)

theorem store_inserts_zero (fresh : Nat → String) (db2 : List RecordRow)
    (items : List ApifyItem)
    (hall : ∀ r ∈ mapApifyItemsToRecords fresh items,
      r.external_id ∈ db2.map (fun x => x.external_id)) :
    (storeInSupabase fresh db2 items).1 = 0 := by
  unfold storeInSupabase
  split
  · rfl
  · split
    · rfl
    · split
      · rfl
      · next hne =>
        exfalso
        apply hne
        rw [List.isEmpty_iff]
        unfold newRowsOf
        rw [List.filter_eq_nil_iff]
        intro r hr
        simp only [decide_eq_true_eq, not_not]
        unfold existingIdsOf
        refine List.mem_filter.mpr ⟨hall r hr, ?_⟩
        simp only [decide_eq_true_eq]
        exact List.mem_map_of_mem _ hr

/-- An item with content but no `id`, `url` or `uniqueId`. -/
def itemNoId : ApifyItem := { text := "hello world" }

/-- Second stamp generator, disjoint from `freshIdx` (a later run draws a
later `Date.now() + Math.random()`). -/
def freshB : Nat → String := fun k => toString (k + 1000)

/-- C2 counterexample: an item with no stable identifier gets a fresh
timestamp-random `external_id` on every run, so re-ingesting the same item
set inserts one more row instead of zero. -/
theorem C2_counterexample :
    (storeInSupabase freshIdx [] [itemNoId]).1 = 1 ∧
    (storeInSupabase freshB (storeInSupabase freshIdx [] [itemNoId]).2.2 [itemNoId]).1 = 1 ∧
    (1 : Nat) ≠ 0 :=
  ⟨rfl, rfl, by decide⟩

/-- C2 (amended): re-ingesting an identical item set inserts zero additional
rows provided every item carries at least one of `id`, `url`, `uniqueId`;
items without any stable identifier are assigned a fresh
`Date.now() + Math.random()` `external_id` per run and are re-inserted. -/
theorem C2_idempotent_stable (f1 f2 : Nat → String) (db : List RecordRow)
    (items : List ApifyItem) (hstable : ∀ item ∈ items, stableId item) :
    (storeInSupabase f2 (storeInSupabase f1 db items).2.2 items).1 = 0 := by
  apply store_inserts_zero
  intro r hr
  rw [mapApify_stable f2 f1 items hstable] at hr
  exact store_ids_present f1 db items r hr

/-- C2 witness: re-ingesting a stably-identified item inserts nothing, even
with different timestamp stamps. -/
theorem C2_idempotent_stable_witness :
    (storeInSupabase freshB (storeInSupabase freshIdx [] [itemStable]).2.2
      [itemStable]).1 = 0 :=
  C2_idempotent_stable freshIdx freshB [] [itemStable] (by decide)

/-! ### Claim C8 -/

/-- C8 counterexample: the query string `?limit=` yields the empty string,
which parses to NaN, yet the endpoint does not return 400 — the empty string
is falsy, so the limit silently defaults to 10 and analysis runs. -/
theorem C8_counterexample :
    jsParseInt "" = none ∧
    (analyzePOST (some "") [recUn] (fun _ => Except.ok ⟨"s", "neutral", []⟩) 7).1 =
      { status := 200, ok := true, analyzed := 1, failed := 0,
        resultIds := ["r2"], errorIds := [] } :=
  ⟨rfl, rfl⟩

/-- C8 (amended): a NON-EMPTY limit parameter that parses to NaN, or to a
value below 1 or above 50, gives HTTP 400 with ok false, no selection and no
analysis (the table is untouched); an absent — or empty, being falsy —
parameter defaults the limit to 10. -/
theorem C8_limit_validation (s : String) (db : List DbRecord)
    (oracle : Nat → Except String AnalysisResult) (now : Nat)
    (hs : s ≠ "")
    (hbad : jsParseInt s = none ∨
      ∃ l : Int, jsParseInt s = some l ∧ (l < 1 ∨ l > 50)) :
    (analyzePOST (some s) db oracle now).1 =
      { status := 400, ok := false, analyzed := 0, failed := 0,
        resultIds := [], errorIds := [] } ∧
    (analyzePOST (some s) db oracle now).2 = db ∧
    jsLimit none = some 10 ∧ jsLimit (some "") = some 10 := by
  have hjl : jsLimit (some s) = jsParseInt s := by simp [jsLimit, hs]
  rcases hbad with hb | ⟨l, hl, hlb⟩
  · unfold analyzePOST
    rw [hjl, hb]
    exact ⟨rfl, rfl, rfl, rfl⟩
  · unfold analyzePOST
    rw [hjl, hl]
    simp only [if_pos hlb]
    exact ⟨trivial, trivial, rfl, rfl⟩

/-- C8 witness: `?limit=abc` is rejected with 400 and the table is
untouched. -/
theorem C8_limit_validation_witness :
    (analyzePOST (some "abc") [recUn] c10oracle 7).1 =
      { status := 400, ok := false, analyzed := 0, failed := 0,
        resultIds := [], errorIds := [] } ∧
    (analyzePOST (some "abc") [recUn] c10oracle 7).2 = [recUn] ∧
    jsLimit none = some 10 ∧ jsLimit (some "") = some 10 :=
  C8_limit_validation "abc" [recUn] c10oracle 7 (by decide) (Or.inl (by decide))

end App
